import Mathlib

/-!
Verification development for the unsplash-server MCP tool host
(src/src/index.ts).  The four tool handlers, the dispatcher, and the
download pipeline are embedded shallowly: external collaborators
(the unsplash-js adapter, node-fetch, the filesystem) are modelled as an
explicit environment of functions, and each handler returns its response
envelope together with the ordered trace of external effects it performed.
-/

set_option maxHeartbeats 1000000

namespace Unsplash

/-- A JavaScript value, as far as the argument checks in index.ts look at
it (`!x` truthiness and `typeof x` checks). `Option JSVal` models a
possibly-absent (undefined) property. -/
inductive JSVal where
  | str : String → JSVal
  | num : Int → JSVal
  | bool : Bool → JSVal
  | null : JSVal
deriving DecidableEq, Repr

/-- JS truthiness of a defined value. -/
def JSVal.truthy : JSVal → Bool
  | .str s => s ≠ ""
  | .num n => n ≠ 0
  | .bool b => b
  | .null => false

/-- JS truthiness of a possibly-undefined value (`!x` is the negation). -/
def truthyOpt : Option JSVal → Bool
  | none => false
  | some v => v.truthy

/-- Test `typeof v === "string"` on a possibly-undefined value. -/
def isStringOpt : Option JSVal → Bool
  | some (.str _) => true
  | _ => false

/-- Extract the string payload (used after the truthiness/typeof guard). -/
def getStr : Option JSVal → String
  | some (.str s) => s
  | _ => ""

/-- JS truthiness for an optional string-valued property. -/
def truthyStr : Option String → Bool
  | none => false
  | some s => s ≠ ""

/-- JSON document, mirroring the object literals serialized by the
handlers with `JSON.stringify(x, null, 2)`. -/
inductive Json where
  | null : Json
  | bool : Bool → Json
  | num : Int → Json
  | str : String → Json
  | arr : List Json → Json
  | obj : List (String × Json) → Json
deriving Repr

/-- Escape one character the way JSON.stringify renders string contents. -/
def jescapeChar (c : Char) : String :=
  if c = '"' then "\\\""
  else if c = '\\' then "\\\\"
  else if c = '\n' then "\\n"
  else if c = '\t' then "\\t"
  else if c = '\r' then "\\r"
  else String.singleton c

/-- Escape a string the way JSON.stringify renders string contents. -/
def jescape (s : String) : String :=
  String.join (s.data.map jescapeChar)

mutual

/-- Pretty serialization of a JSON value at indentation `pre`,
following `JSON.stringify(v, null, 2)`. -/
def jstr (pre : String) : Json → String
  | .null => "null"
  | .bool b => cond b "true" "false"
  | .num n => toString n
  | .str s => "\"" ++ jescape s ++ "\""
  | .arr [] => "[]"
  | .arr (x :: xs) => "[\n" ++ jstrArr (pre ++ "  ") (x :: xs) ++ "\n" ++ pre ++ "]"
  | .obj [] => "\x7b\x7d"
  | .obj (x :: xs) => "\x7b\n" ++ jstrObj (pre ++ "  ") (x :: xs) ++ "\n" ++ pre ++ "\x7d"

/-- Serialize array elements, one per line, comma separated. -/
def jstrArr (pre : String) : List Json → String
  | [] => ""
  | [x] => pre ++ jstr pre x
  | x :: y :: xs => pre ++ jstr pre x ++ ",\n" ++ jstrArr pre (y :: xs)

/-- Serialize object entries, one per line, comma separated. -/
def jstrObj (pre : String) : List (String × Json) → String
  | [] => ""
  | [(k, v)] => pre ++ "\"" ++ jescape k ++ "\": " ++ jstr pre v
  | (k, v) :: y :: xs =>
      pre ++ "\"" ++ jescape k ++ "\": " ++ jstr pre v ++ ",\n" ++ jstrObj pre (y :: xs)

end

/-- Serialization entry point `JSON.stringify(j, null, 2)`. -/
def Json.stringify (j : Json) : String := jstr "" j

/-- Field lookup in a serialized object payload (first binding wins,
as in a JS object literal without duplicate keys). -/
def jsonField (j : Json) (k : String) : Option Json :=
  match j with
  | .obj l => (l.find? (fun p => p.1 = k)).map (fun p => p.2)
  | _ => none

/-- The five size variants of a photo (`photo.urls`). -/
structure Urls where
  raw : String
  full : String
  regular : String
  small : String
  thumb : String
deriving DecidableEq, Repr

/-- Model of `photo.user.links`. -/
structure UserLinks where
  html : String
deriving DecidableEq, Repr

/-- Model of `photo.user`. -/
structure UnsplashUser where
  name : String
  username : String
  links : UserLinks
deriving DecidableEq, Repr

/-- Model of `photo.links`. -/
structure PhotoLinks where
  html : String
  download_location : String
deriving DecidableEq, Repr

/-- A provider photo object, restricted to the fields index.ts reads. -/
structure ProviderPhoto where
  id : String
  description : Option String
  alt_description : Option String
  width : Int
  height : Int
  urls : Urls
  user : UnsplashUser
  links : PhotoLinks
deriving DecidableEq, Repr

/-- The unsplash-js search response body (`result.response`). -/
structure SearchResponse where
  total : Int
  total_pages : Int
  results : List ProviderPhoto
deriving DecidableEq, Repr

/-- Response of `photos.getRandom`: the provider returns a single photo when `count` was not sent
and an array when it was; the code distinguishes by `Array.isArray`. -/
inductive RandomResp where
  | single : ProviderPhoto → RandomResp
  | many : List ProviderPhoto → RandomResp
deriving DecidableEq, Repr

/-- An unsplash-js api result: the code only checks whether the
`errors` field is present and otherwise reads `response`. -/
inductive ApiResult (α : Type) where
  | errors : List String → ApiResult α
  | ok : α → ApiResult α
deriving DecidableEq, Repr

/-- Parameters sent to `unsplash.search.getPhotos`. -/
structure SearchParams where
  query : String
  page : Int
  perPage : Int
  orientation : Option String
deriving DecidableEq, Repr

/-- Parameters sent to `unsplash.photos.getRandom` (query is passed
through untouched from the arguments object). -/
structure RandomParams where
  query : Option JSVal
  orientation : Option String
  count : Int
deriving DecidableEq, Repr

/-- A node-fetch response as the download pipeline reads it. -/
structure FetchResponse where
  ok : Bool
  status : Int
  statusText : String
  body : List Nat
deriving DecidableEq, Repr

/-- An external effect performed by a handler, in program order. -/
inductive Effect where
  | searchGetPhotos : SearchParams → Effect
  | photosGetRandom : RandomParams → Effect
  | photosGet : String → Effect
  | trackDownload : String → Effect
  | mkdirRecursive : String → Effect
  | fetchUrl : String → Effect
  | writeFile : String → List Nat → Effect
deriving DecidableEq, Repr

/-- Whether an effect is a call into the unsplash-js provider adapter. -/
def Effect.isAdapterCall : Effect → Bool
  | .searchGetPhotos _ => true
  | .photosGetRandom _ => true
  | .photosGet _ => true
  | .trackDownload _ => true
  | _ => false

/-- The external world as the handlers see it.  Every operation may
either return a value or throw (`Except.error msg` stands for a rejected
promise whose message the catch-all turns into an error envelope). -/
structure Env where
  searchGetPhotos : SearchParams → Except String (ApiResult SearchResponse)
  photosGetRandom : RandomParams → Except String (ApiResult RandomResp)
  photosGet : String → Except String (ApiResult ProviderPhoto)
  trackDownload : String → Except String (ApiResult Unit)
  dirExists : String → Bool
  mkdirRecursive : String → Except String Unit
  fetchUrl : String → Except String FetchResponse
  writeFile : String → List Nat → Except String Unit

/-- The `arguments` object of a tool invocation, restricted to the
properties the handlers destructure.  `none` is an absent property.
Properties the schema declares as numbers or enum strings are modelled
at that type; `query` and `id` stay raw `JSVal`s because the code runs
`typeof` checks on them. -/
structure Args where
  query : Option JSVal := none
  page : Option Int := none
  perPage : Option Int := none
  orientation : Option String := none
  count : Option Int := none
  id : Option JSVal := none
  imageSource : Option String := none
  sourceType : Option String := none
  destinationPath : Option String := none
  quality : Option String := none
deriving DecidableEq, Repr

/-- One element of the envelope `content` array. -/
structure TextContent where
  type : String
  text : String
deriving DecidableEq, Repr

/-- The uniform response envelope; a success response omits `isError`,
which reads back as false. -/
structure ResponseEnvelope where
  content : List TextContent
  isError : Bool := false
deriving DecidableEq, Repr

/-- Error envelope, as each literal `{content:[{type,text}],isError:true}`. -/
def errEnvelope (msg : String) : ResponseEnvelope :=
  { content := [{ type := "text", text := msg }], isError := true }

/-- Success envelope: the payload serialized with `JSON.stringify(p, null, 2)`. -/
def okEnvelope (j : Json) : ResponseEnvelope :=
  { content := [{ type := "text", text := Json.stringify j }], isError := false }

/-- Fallback chain `photo.description || photo.alt_description || "No description"`. -/
def descriptionOf (p : ProviderPhoto) : String :=
  match p.description with
  | some s =>
      if s ≠ "" then s
      else match p.alt_description with
           | some t => if t ≠ "" then t else "No description"
           | none => "No description"
  | none =>
      match p.alt_description with
      | some t => if t ≠ "" then t else "No description"
      | none => "No description"

/-- Projection of `photo.urls` passed through to the payload. -/
def urlsJson (u : Urls) : Json :=
  .obj [("raw", .str u.raw), ("full", .str u.full), ("regular", .str u.regular),
        ("small", .str u.small), ("thumb", .str u.thumb)]

/-- Projection of `photo.links` passed through to the payload. -/
def linksJson (l : PhotoLinks) : Json :=
  .obj [("html", .str l.html), ("download_location", .str l.download_location)]

/-- The projection applied to every photo by the three read tools
(the `formatPhoto` arrow function and the two inline copies of it). -/
def formatPhotoJson (p : ProviderPhoto) : Json :=
  .obj [("id", .str p.id),
        ("description", .str (descriptionOf p)),
        ("width", .num p.width),
        ("height", .num p.height),
        ("urls", urlsJson p.urls),
        ("user", .obj [("name", .str p.user.name),
                       ("username", .str p.user.username),
                       ("link", .str p.user.links.html)]),
        ("links", linksJson p.links)]

/-- Scan of node path.posix.dirname: walk from the end, skip trailing
slashes, return the index of the next slash (never index 0). -/
def dirnameScan (cs : List Char) : Nat → Bool → Option Nat
  | 0, _ => none
  | i + 1, matchedSlash =>
      if cs.getD (i + 1) ' ' = '/' then
        if matchedSlash then dirnameScan cs i matchedSlash else some (i + 1)
      else dirnameScan cs i false

/-- node `path.dirname` (posix). -/
def dirname (p : String) : String :=
  let cs := p.data
  if cs.length = 0 then "."
  else
    let hasRoot := cs.getD 0 ' ' = '/'
    match dirnameScan cs (cs.length - 1) true with
    | none => if hasRoot then "/" else "."
    | some e =>
        if hasRoot ∧ e = 1 then "//"
        else String.mk (cs.take e)

/-- The switch on `quality` selecting which url field to fetch;
`quality` defaults to "regular" and unrecognized values fall through
to the default case. -/
def selectQuality (quality : Option String) (u : Urls) : String :=
  let q := quality.getD "regular"
  if q = "raw" then u.raw
  else if q = "full" then u.full
  else if q = "small" then u.small
  else if q = "thumb" then u.thumb
  else u.regular

/-- The success payload of download_image (note the field is named
`fileSize` in the code). -/
def downloadSuccessJson (destinationPath : String) (len : Nat) : Json :=
  .obj [("success", .bool true),
        ("message", .str ("Image successfully downloaded to " ++ destinationPath)),
        ("filePath", .str destinationPath),
        ("fileSize", .num (Int.ofNat len))]

/-- The search parameters built from the arguments object:
page defaults to 1, perPage defaults to 10 and is clamped with
`Math.min(perPage, 30)`. -/
def searchParamsOf (args : Args) : SearchParams :=
  { query := getStr args.query, page := args.page.getD 1,
    perPage := min (args.perPage.getD 10) 30,
    orientation := args.orientation }

/-- The random-photo parameters built from the arguments object:
count defaults to 1 and is clamped with `Math.min(count, 30)`. -/
def randomParamsOf (args : Args) : RandomParams :=
  { query := args.query, orientation := args.orientation,
    count := min (args.count.getD 1) 30 }

/-- Normalization `Array.isArray(result.response) ? result.response.map(formatPhoto)
: [formatPhoto(result.response)]`. -/
def randomImagesOf : RandomResp → List Json
  | .many ps => ps.map formatPhotoJson
  | .single p => [formatPhotoJson p]

/-- The destination path after the truthiness guard. -/
def dpOf (args : Args) : String := args.destinationPath.getD ""

/-- The image source after the truthiness guard. -/
def srcOf (args : Args) : String := args.imageSource.getD ""

/-- Value of `path.dirname(destinationPath)`. -/
def dirOf (args : Args) : String := dirname (dpOf args)

/-- The effect trace of the ensure-directory step: `mkdirSync` runs only
when `existsSync` is false. -/
def mkPre (args : Args) (env : Env) : List Effect :=
  if env.dirExists (dirOf args) then [] else [Effect.mkdirRecursive (dirOf args)]

/-- The shared error envelope for a provider-reported error list: the
errors joined with comma-space after the Unsplash API error prefix. -/
def providerErrEnvelope (es : List String) : ResponseEnvelope :=
  errEnvelope ("Unsplash API error: " ++ String.intercalate ", " es)

/-- The tail of the download pipeline after the url is resolved:
fetch, status check, buffer, write, report. -/
def fetchAndWrite (env : Env) (destinationPath url : String)
    (tr : List Effect) : ResponseEnvelope × List Effect :=
  let feff := Effect.fetchUrl url
  match env.fetchUrl url with
  | .error msg => (errEnvelope ("Error downloading image: " ++ msg), tr ++ [feff])
  | .ok resp =>
      if ¬ resp.ok then
        (errEnvelope ("Failed to download image: "
            ++ (toString resp.status ++ " " ++ resp.statusText)), tr ++ [feff])
      else
        let buffer := resp.body
        let weff := Effect.writeFile destinationPath buffer
        match env.writeFile destinationPath buffer with
        | .error msg =>
            (errEnvelope ("Error downloading image: " ++ msg), tr ++ [feff, weff])
        | .ok _ =>
            (okEnvelope (downloadSuccessJson destinationPath buffer.length),
             tr ++ [feff, weff])

/-- Handler `handleSearchImages`. -/
def handleSearchImages (args : Args) (env : Env) : ResponseEnvelope × List Effect :=
  if ¬ (truthyOpt args.query ∧ isStringOpt args.query) then
    (errEnvelope "Invalid query. Please provide a search term.", [])
  else
    let params := searchParamsOf args
    let eff := Effect.searchGetPhotos params
    match env.searchGetPhotos params with
    | .error msg => (errEnvelope ("Error searching images: " ++ msg), [eff])
    | .ok (.errors es) => (providerErrEnvelope es, [eff])
    | .ok (.ok resp) =>
        (okEnvelope (.obj [("total", .num resp.total),
                           ("total_pages", .num resp.total_pages),
                           ("images", .arr (resp.results.map formatPhotoJson))]),
         [eff])

/-- Handler `handleGetRandomImage`. -/
def handleGetRandomImage (args : Args) (env : Env) : ResponseEnvelope × List Effect :=
  let params := randomParamsOf args
  let eff := Effect.photosGetRandom params
  match env.photosGetRandom params with
  | .error msg => (errEnvelope ("Error getting random image: " ++ msg), [eff])
  | .ok (.errors es) => (providerErrEnvelope es, [eff])
  | .ok (.ok resp) =>
      (okEnvelope (.obj [("images", .arr (randomImagesOf resp))]), [eff])

/-- Handler `handleGetImageById`. -/
def handleGetImageById (args : Args) (env : Env) : ResponseEnvelope × List Effect :=
  if ¬ (truthyOpt args.id ∧ isStringOpt args.id) then
    (errEnvelope "Invalid ID. Please provide a valid Unsplash image ID.", [])
  else
    let pid := getStr args.id
    let eff := Effect.photosGet pid
    match env.photosGet pid with
    | .error msg => (errEnvelope ("Error getting image by ID: " ++ msg), [eff])
    | .ok (.errors es) => (providerErrEnvelope es, [eff])
    | .ok (.ok photo) =>
        (okEnvelope (.obj [("image", formatPhotoJson photo)]), [eff])

/-- Handler `handleDownloadImage`. -/
def handleDownloadImage (args : Args) (env : Env) : ResponseEnvelope × List Effect :=
  if ¬ (truthyStr args.imageSource ∧ truthyStr args.sourceType
        ∧ truthyStr args.destinationPath) then
    (errEnvelope ("Missing required parameters. Please provide imageSource, "
        ++ "sourceType, and destinationPath."), [])
  else
    let imageSource := srcOf args
    let sourceType := args.sourceType.getD ""
    let destinationPath := dpOf args
    if sourceType ≠ "url" ∧ sourceType ≠ "id" then
      (errEnvelope "Invalid sourceType. Please provide either \"url\" or \"id\".", [])
    else
      let dir := dirOf args
      let mkTrace := mkPre args env
      let mkResult : Except String Unit :=
        if env.dirExists dir then .ok () else env.mkdirRecursive dir
      match mkResult with
      | .error msg => (errEnvelope ("Error downloading image: " ++ msg), mkTrace)
      | .ok _ =>
          if sourceType = "id" then
            let geff := Effect.photosGet imageSource
            match env.photosGet imageSource with
            | .error msg =>
                (errEnvelope ("Error downloading image: " ++ msg), mkTrace ++ [geff])
            | .ok (.errors es) => (providerErrEnvelope es, mkTrace ++ [geff])
            | .ok (.ok photo) =>
                let imageUrl := selectQuality args.quality photo.urls
                let dl := photo.links.download_location
                let teff := Effect.trackDownload dl
                match env.trackDownload dl with
                | .error msg =>
                    (errEnvelope ("Error downloading image: " ++ msg),
                     mkTrace ++ [geff, teff])
                | .ok _ =>
                    fetchAndWrite env destinationPath imageUrl (mkTrace ++ [geff, teff])
          else
            fetchAndWrite env destinationPath imageSource mkTrace

/-- The protocol error codes of the MCP SDK that this program uses. -/
inductive ErrorCode where
  | methodNotFound : ErrorCode
  | invalidRequest : ErrorCode
  | internalError : ErrorCode
deriving DecidableEq, Repr

/-- A protocol-level `McpError` thrown past the envelope channel. -/
structure McpErr where
  code : ErrorCode
  message : String
deriving DecidableEq, Repr

/-- The CallTool request dispatcher: the switch on `request.params.name`.
A handler result travels in `Except.ok`; the default branch throws an
`McpError`, which is `Except.error` here. -/
def dispatch (name : String) (args : Args) (env : Env) :
    Except McpErr (ResponseEnvelope × List Effect) :=
  if name = "search_images" then .ok (handleSearchImages args env)
  else if name = "get_random_image" then .ok (handleGetRandomImage args env)
  else if name = "get_image_by_id" then .ok (handleGetImageById args env)
  else if name = "download_image" then .ok (handleDownloadImage args env)
  else .error { code := .methodNotFound, message := "Unknown tool: " ++ name }

/-- The human-readable error messages a handler can emit: the literal
validation messages and the prefixed provider/exception/status messages. -/
def errText (s : String) : Prop :=
  s = "Invalid query. Please provide a search term." ∨
  s = "Invalid ID. Please provide a valid Unsplash image ID." ∨
  s = ("Missing required parameters. Please provide imageSource, "
        ++ "sourceType, and destinationPath.") ∨
  s = "Invalid sourceType. Please provide either \"url\" or \"id\"." ∨
  (∃ m, s = "Unsplash API error: " ++ m) ∨
  (∃ m, s = "Error searching images: " ++ m) ∨
  (∃ m, s = "Error getting random image: " ++ m) ∨
  (∃ m, s = "Error getting image by ID: " ++ m) ∨
  (∃ m, s = "Error downloading image: " ++ m) ∨
  (∃ m, s = "Failed to download image: " ++ m)

/-- The envelope invariant of the spec: exactly one text element, the
error flag true exactly on a human-readable error message, the text a
serialized JSON payload otherwise. -/
def goodEnvelope (e : ResponseEnvelope) : Prop :=
  ∃ c, e.content = [c] ∧ c.type = "text" ∧
    (e.isError = true ↔ errText c.text) ∧
    (e.isError = false → ∃ j, c.text = Json.stringify j)

/-- Fixtures: an empty arguments object. -/
def emptyArgs : Args := {}

/-- Fixtures: a provider photo. -/
def samplePhoto : ProviderPhoto :=
  { id := "abc123", description := some "a cat",
    alt_description := none, width := 100, height := 80,
    urls := { raw := "https://img/raw", full := "https://img/full",
              regular := "https://img/regular", small := "https://img/small",
              thumb := "https://img/thumb" },
    user := { name := "Ann", username := "ann",
              links := { html := "https://u/ann" } },
    links := { html := "https://p/abc123",
               download_location := "https://api/dl/abc123" } }

/-- Fixtures: a well-behaved environment. -/
def cEnv : Env :=
  { searchGetPhotos := fun _ =>
      .ok (.ok { total := 1, total_pages := 1, results := [samplePhoto] }),
    photosGetRandom := fun _ => .ok (.ok (.single samplePhoto)),
    photosGet := fun _ => .ok (.ok samplePhoto),
    trackDownload := fun _ => .ok (.ok ()),
    dirExists := fun _ => false,
    mkdirRecursive := fun _ => .ok (),
    fetchUrl := fun _ =>
      .ok { ok := true, status := 200, statusText := "OK", body := [7, 8, 9] },
    writeFile := fun _ _ => .ok () }

/-- Fixtures: an environment whose provider calls all report an error list. -/
def cErrEnv : Env :=
  { cEnv with
    searchGetPhotos := fun _ => .ok (.errors ["Rate Limit Exceeded"]),
    photosGetRandom := fun _ => .ok (.errors ["Rate Limit Exceeded"]),
    photosGet := fun _ => .ok (.errors ["Rate Limit Exceeded"]) }

/-- Fixtures: arguments valid for all four tools at once. -/
def cArgs : Args :=
  { query := some (.str "cats"), id := some (.str "abc123"),
    imageSource := some "abc123", sourceType := some "id",
    destinationPath := some "/tmp/pics/cat.jpg", quality := some "full" }

/-- Fixtures: an environment whose random-photo call returns an array. -/
def cManyEnv : Env :=
  { cEnv with
    photosGetRandom := fun _ => .ok (.ok (.many [samplePhoto, samplePhoto])) }

/-- Fixtures: a random-image invocation with a count argument. -/
def cCountArgs : Args := { count := some 3 }

/-- Fixtures: arguments exercising the numeric clamping. -/
def cClampArgs : Args :=
  { query := some (.str "cats"), perPage := some 1000, count := some 50 }

/-- Fixtures: download arguments with a direct url source. -/
def cUrlArgs : Args :=
  { imageSource := some "https://img/direct.jpg", sourceType := some "url",
    destinationPath := some "/tmp/pics/cat.jpg" }

lemma data_head_append (p m : String) (c : Char)
    (h : p.data.head? = some c) : (p ++ m).data.head? = some c := by
  rw [String.data_append]
  cases hp : p.data with
  | nil => rw [hp] at h; simp at h
  | cons a t => rw [hp] at h; simpa using h

lemma errText_head (s : String) (h : errText s) :
    s.data.head? = some 'I' ∨ s.data.head? = some 'M' ∨
    s.data.head? = some 'U' ∨ s.data.head? = some 'E' ∨
    s.data.head? = some 'F' := by
  rcases h with h | h | h | h | ⟨m, h⟩ | ⟨m, h⟩ | ⟨m, h⟩ | ⟨m, h⟩ | ⟨m, h⟩ | ⟨m, h⟩
  · exact Or.inl (by rw [h]; rfl)
  · exact Or.inl (by rw [h]; rfl)
  · exact Or.inr (Or.inl (by rw [h]; rfl))
  · exact Or.inl (by rw [h]; rfl)
  · exact Or.inr (Or.inr (Or.inl (by rw [h]; exact data_head_append _ m _ rfl)))
  · exact Or.inr (Or.inr (Or.inr (Or.inl (by rw [h]; exact data_head_append _ m _ rfl))))
  · exact Or.inr (Or.inr (Or.inr (Or.inl (by rw [h]; exact data_head_append _ m _ rfl))))
  · exact Or.inr (Or.inr (Or.inr (Or.inl (by rw [h]; exact data_head_append _ m _ rfl))))
  · exact Or.inr (Or.inr (Or.inr (Or.inl (by rw [h]; exact data_head_append _ m _ rfl))))
  · exact Or.inr (Or.inr (Or.inr (Or.inr (by rw [h]; exact data_head_append _ m _ rfl))))

lemma stringify_obj_head (l : List (String × Json)) :
    (Json.stringify (Json.obj l)).data.head? = some '\x7b' := by
  cases l with
  | nil => rfl
  | cons x xs =>
      show (jstr "" (Json.obj (x :: xs))).data.head? = some '\x7b'
      rw [jstr]
      exact data_head_append "\x7b\n" _ _ rfl

lemma errText_not_obj (l : List (String × Json)) :
    ¬ errText (Json.stringify (Json.obj l)) := by
  intro h
  have hh := errText_head _ h
  rw [stringify_obj_head l] at hh
  rcases hh with hh | hh | hh | hh | hh <;> simp at hh

lemma goodEnvelope_err (m : String) (h : errText m) :
    goodEnvelope (errEnvelope m) := by
  refine ⟨{ type := "text", text := m }, rfl, rfl, ?_, ?_⟩
  · exact ⟨fun _ => h, fun _ => rfl⟩
  · intro hf; simp [errEnvelope] at hf

lemma goodEnvelope_ok (l : List (String × Json)) :
    goodEnvelope (okEnvelope (Json.obj l)) := by
  refine ⟨{ type := "text", text := Json.stringify (Json.obj l) }, rfl, rfl, ?_, ?_⟩
  · constructor
    · intro hf; simp [okEnvelope] at hf
    · intro h; exact absurd h (errText_not_obj l)
  · intro _; exact ⟨Json.obj l, rfl⟩

lemma goodEnvelope_provider (es : List String) :
    goodEnvelope (providerErrEnvelope es) :=
  goodEnvelope_err _ (Or.inr (Or.inr (Or.inr (Or.inr (Or.inl ⟨_, rfl⟩)))))

lemma good_fetchAndWrite (env : Env) (dp url : String) (tr : List Effect) :
    goodEnvelope (fetchAndWrite env dp url tr).1 := by
  unfold fetchAndWrite
  dsimp only
  split
  · exact goodEnvelope_err _
      (Or.inr (Or.inr (Or.inr (Or.inr (Or.inr (Or.inr (Or.inr (Or.inr
        (Or.inl ⟨_, rfl⟩)))))))))
  · split
    · exact goodEnvelope_err _
        (Or.inr (Or.inr (Or.inr (Or.inr (Or.inr (Or.inr (Or.inr (Or.inr
          (Or.inr ⟨_, rfl⟩)))))))))
    · split
      · exact goodEnvelope_err _
          (Or.inr (Or.inr (Or.inr (Or.inr (Or.inr (Or.inr (Or.inr (Or.inr
            (Or.inl ⟨_, rfl⟩)))))))))
      · exact goodEnvelope_ok _

lemma good_search (args : Args) (env : Env) :
    goodEnvelope (handleSearchImages args env).1 := by
  unfold handleSearchImages
  dsimp only
  split
  · exact goodEnvelope_err _ (Or.inl rfl)
  · split
    · exact goodEnvelope_err _
        (Or.inr (Or.inr (Or.inr (Or.inr (Or.inr (Or.inl ⟨_, rfl⟩))))))
    · exact goodEnvelope_provider _
    · exact goodEnvelope_ok _

lemma good_random (args : Args) (env : Env) :
    goodEnvelope (handleGetRandomImage args env).1 := by
  unfold handleGetRandomImage
  dsimp only
  split
  · exact goodEnvelope_err _
      (Or.inr (Or.inr (Or.inr (Or.inr (Or.inr (Or.inr (Or.inl ⟨_, rfl⟩)))))))
  · exact goodEnvelope_provider _
  · exact goodEnvelope_ok _

lemma good_byId (args : Args) (env : Env) :
    goodEnvelope (handleGetImageById args env).1 := by
  unfold handleGetImageById
  dsimp only
  split
  · exact goodEnvelope_err _ (Or.inr (Or.inl rfl))
  · split
    · exact goodEnvelope_err _
        (Or.inr (Or.inr (Or.inr (Or.inr (Or.inr (Or.inr (Or.inr (Or.inl
          ⟨_, rfl⟩))))))))
    · exact goodEnvelope_provider _
    · exact goodEnvelope_ok _

lemma good_download (args : Args) (env : Env) :
    goodEnvelope (handleDownloadImage args env).1 := by
  unfold handleDownloadImage
  dsimp only
  split
  · exact goodEnvelope_err _ (Or.inr (Or.inr (Or.inl rfl)))
  · split
    · exact goodEnvelope_err _ (Or.inr (Or.inr (Or.inr (Or.inl rfl))))
    · split
      · exact goodEnvelope_err _
          (Or.inr (Or.inr (Or.inr (Or.inr (Or.inr (Or.inr (Or.inr (Or.inr
            (Or.inl ⟨_, rfl⟩)))))))))
      · split
        · split
          · exact goodEnvelope_err _
              (Or.inr (Or.inr (Or.inr (Or.inr (Or.inr (Or.inr (Or.inr (Or.inr
                (Or.inl ⟨_, rfl⟩)))))))))
          · exact goodEnvelope_provider _
          · split
            · exact goodEnvelope_err _
                (Or.inr (Or.inr (Or.inr (Or.inr (Or.inr (Or.inr (Or.inr (Or.inr
                  (Or.inl ⟨_, rfl⟩)))))))))
            · exact good_fetchAndWrite _ _ _ _
        · exact good_fetchAndWrite _ _ _ _

end Unsplash

open Unsplash

/-- C1: every response envelope produced by dispatching a tool call to
one of the four handlers has exactly one content element of type text,
with isError true exactly when the text is one of the human-readable
error messages and the text a serialized JSON payload otherwise. -/
theorem c1_envelope_invariant (name : String) (args : Args) (env : Env)
    (e : ResponseEnvelope) (tr : List Effect)
    (h : dispatch name args env = .ok (e, tr)) : goodEnvelope e := by
  unfold dispatch at h
  split at h
  · injection h with h'
    have h1 := congrArg Prod.fst h'
    simp at h1
    rw [← h1]; exact good_search args env
  · split at h
    · injection h with h'
      have h1 := congrArg Prod.fst h'
      simp at h1
      rw [← h1]; exact good_random args env
    · split at h
      · injection h with h'
        have h1 := congrArg Prod.fst h'
        simp at h1
        rw [← h1]; exact good_byId args env
      · split at h
        · injection h with h'
          have h1 := congrArg Prod.fst h'
          simp at h1
          rw [← h1]; exact good_download args env
        · cases h

/-- C1 witness: at the concrete empty-arguments invocation of
search_images, the invariant holds of the returned envelope. -/
theorem c1_envelope_invariant_witness :
    goodEnvelope (handleSearchImages emptyArgs cEnv).1 :=
  c1_envelope_invariant "search_images" emptyArgs cEnv
    (handleSearchImages emptyArgs cEnv).1
    (handleSearchImages emptyArgs cEnv).2 rfl

namespace Unsplash

lemma search_provider_err (args : Args) (env : Env) (es : List String)
    (h : truthyOpt args.query ∧ isStringOpt args.query)
    (he : env.searchGetPhotos (searchParamsOf args) = .ok (.errors es)) :
    handleSearchImages args env =
      (providerErrEnvelope es, [Effect.searchGetPhotos (searchParamsOf args)]) := by
  unfold handleSearchImages
  rw [if_neg (not_not_intro h)]
  dsimp only
  rw [he]

lemma random_provider_err (args : Args) (env : Env) (es : List String)
    (he : env.photosGetRandom (randomParamsOf args) = .ok (.errors es)) :
    handleGetRandomImage args env =
      (providerErrEnvelope es, [Effect.photosGetRandom (randomParamsOf args)]) := by
  unfold handleGetRandomImage
  dsimp only
  rw [he]

lemma byId_provider_err (args : Args) (env : Env) (es : List String)
    (h : truthyOpt args.id ∧ isStringOpt args.id)
    (he : env.photosGet (getStr args.id) = .ok (.errors es)) :
    handleGetImageById args env =
      (providerErrEnvelope es, [Effect.photosGet (getStr args.id)]) := by
  unfold handleGetImageById
  rw [if_neg (not_not_intro h)]
  dsimp only
  rw [he]

lemma download_provider_err (args : Args) (env : Env) (es : List String)
    (hA : truthyStr args.imageSource = true) (hB : truthyStr args.sourceType = true)
    (hC : truthyStr args.destinationPath = true)
    (hst : args.sourceType = some "id")
    (hmk : env.dirExists (dirOf args) = true ∨ env.mkdirRecursive (dirOf args) = .ok ())
    (he : env.photosGet (srcOf args) = .ok (.errors es)) :
    handleDownloadImage args env =
      (providerErrEnvelope es, mkPre args env ++ [Effect.photosGet (srcOf args)]) := by
  have hgd : args.sourceType.getD "" = "id" := by rw [hst]; rfl
  rcases hmk with hd | hmo
  · simp [handleDownloadImage, mkPre, hA, hB, hC, hgd, hd, he]
  · by_cases hd : env.dirExists (dirOf args) = true
    · simp [handleDownloadImage, mkPre, hA, hB, hC, hgd, hd, he]
    · simp [handleDownloadImage, mkPre, hA, hB, hC, hgd, hd, hmo, he]

end Unsplash

/-- C2: the dispatcher routes each of the four known tool names to its
handler and fails any other name with a MethodNotFound protocol error
carrying the offending name, never a normal envelope. -/
theorem c2_dispatch_routing (name : String) (args : Args) (env : Env) :
    (name ∉ ["search_images", "get_random_image", "get_image_by_id",
              "download_image"] →
      dispatch name args env =
        .error { code := ErrorCode.methodNotFound,
                 message := "Unknown tool: " ++ name }) ∧
    dispatch "search_images" args env = .ok (handleSearchImages args env) ∧
    dispatch "get_random_image" args env = .ok (handleGetRandomImage args env) ∧
    dispatch "get_image_by_id" args env = .ok (handleGetImageById args env) ∧
    dispatch "download_image" args env = .ok (handleDownloadImage args env) := by
  refine ⟨?_, rfl, rfl, rfl, rfl⟩
  intro hn
  simp only [List.mem_cons, List.not_mem_nil, or_false, not_or] at hn
  obtain ⟨h1, h2, h3, h4⟩ := hn
  unfold dispatch
  rw [if_neg h1, if_neg h2, if_neg h3, if_neg h4]

/-- C2 witness: the concrete unknown name frobnicate produces the
protocol error, and a known name routes to its handler. -/
theorem c2_dispatch_routing_witness :
    dispatch "frobnicate" emptyArgs cEnv =
      .error { code := ErrorCode.methodNotFound,
               message := "Unknown tool: " ++ "frobnicate" } ∧
    dispatch "search_images" emptyArgs cEnv =
      .ok (handleSearchImages emptyArgs cEnv) :=
  ⟨(c2_dispatch_routing "frobnicate" emptyArgs cEnv).1 (by decide),
   (c2_dispatch_routing "frobnicate" emptyArgs cEnv).2.1⟩

/-- C3: whichever tool reaches the provider adapter, a provider response
carrying a non-empty error list is returned as a business error envelope
whose text joins the errors with comma-space, through the ok channel of
the dispatcher (no exception past the handler boundary). -/
theorem c3_provider_error_envelope (args : Args) (env : Env)
    (es : List String) (hes : es ≠ []) :
    (providerErrEnvelope es).isError = true ∧
    (providerErrEnvelope es).content =
      [{ type := "text",
         text := "Unsplash API error: " ++ String.intercalate ", " es }] ∧
    (truthyOpt args.query ∧ isStringOpt args.query →
      env.searchGetPhotos (searchParamsOf args) = .ok (.errors es) →
      dispatch "search_images" args env =
        .ok (providerErrEnvelope es,
             [Effect.searchGetPhotos (searchParamsOf args)])) ∧
    (env.photosGetRandom (randomParamsOf args) = .ok (.errors es) →
      dispatch "get_random_image" args env =
        .ok (providerErrEnvelope es,
             [Effect.photosGetRandom (randomParamsOf args)])) ∧
    (truthyOpt args.id ∧ isStringOpt args.id →
      env.photosGet (getStr args.id) = .ok (.errors es) →
      dispatch "get_image_by_id" args env =
        .ok (providerErrEnvelope es, [Effect.photosGet (getStr args.id)])) ∧
    (truthyStr args.imageSource = true → truthyStr args.sourceType = true →
      truthyStr args.destinationPath = true →
      args.sourceType = some "id" →
      (env.dirExists (dirOf args) = true ∨
        env.mkdirRecursive (dirOf args) = .ok ()) →
      env.photosGet (srcOf args) = .ok (.errors es) →
      dispatch "download_image" args env =
        .ok (providerErrEnvelope es,
             mkPre args env ++ [Effect.photosGet (srcOf args)])) := by
  have _ := hes
  refine ⟨rfl, rfl, ?_, ?_, ?_, ?_⟩
  · intro h he
    exact congrArg Except.ok (search_provider_err args env es h he)
  · intro he
    exact congrArg Except.ok (random_provider_err args env es he)
  · intro h he
    exact congrArg Except.ok (byId_provider_err args env es h he)
  · intro hA hB hC hst hmk he
    exact congrArg Except.ok
      (download_provider_err args env es hA hB hC hst hmk he)

/-- C3 witness: with a provider reporting one error, search_images and
download_image both return the joined business error envelope. -/
theorem c3_provider_error_envelope_witness :
    dispatch "search_images" cArgs cErrEnv =
      .ok (providerErrEnvelope ["Rate Limit Exceeded"],
           [Effect.searchGetPhotos (searchParamsOf cArgs)]) ∧
    dispatch "download_image" cArgs cErrEnv =
      .ok (providerErrEnvelope ["Rate Limit Exceeded"],
           mkPre cArgs cErrEnv ++ [Effect.photosGet (srcOf cArgs)]) := by
  have h := c3_provider_error_envelope cArgs cErrEnv ["Rate Limit Exceeded"]
    (by decide)
  exact ⟨h.2.2.1 (by decide) rfl,
         h.2.2.2.2.2 rfl rfl rfl rfl (Or.inr rfl) rfl⟩

/-- C4: a tool invocation missing a required argument (query for
search_images, id for get_image_by_id, any of imageSource, sourceType,
destinationPath for download_image) yields an error envelope and makes
no call into the provider adapter. -/
theorem c4_missing_required_args (args : Args) (env : Env) :
    (args.query = none →
      (handleSearchImages args env).1.isError = true ∧
      (handleSearchImages args env).2.filter Effect.isAdapterCall = []) ∧
    (args.id = none →
      (handleGetImageById args env).1.isError = true ∧
      (handleGetImageById args env).2.filter Effect.isAdapterCall = []) ∧
    (args.imageSource = none ∨ args.sourceType = none ∨
        args.destinationPath = none →
      (handleDownloadImage args env).1.isError = true ∧
      (handleDownloadImage args env).2.filter Effect.isAdapterCall = []) := by
  refine ⟨?_, ?_, ?_⟩
  · intro hq
    constructor <;> simp [handleSearchImages, hq, truthyOpt, errEnvelope]
  · intro hi
    constructor <;> simp [handleGetImageById, hi, truthyOpt, errEnvelope]
  · intro h
    rcases h with h | h | h <;>
      constructor <;> simp [handleDownloadImage, h, truthyStr, errEnvelope]

/-- C4 witness: the empty arguments object trips all three validators
without any adapter call. -/
theorem c4_missing_required_args_witness :
    ((handleSearchImages emptyArgs cEnv).1.isError = true ∧
      (handleSearchImages emptyArgs cEnv).2.filter Effect.isAdapterCall = []) ∧
    ((handleGetImageById emptyArgs cEnv).1.isError = true ∧
      (handleGetImageById emptyArgs cEnv).2.filter Effect.isAdapterCall = []) ∧
    ((handleDownloadImage emptyArgs cEnv).1.isError = true ∧
      (handleDownloadImage emptyArgs cEnv).2.filter Effect.isAdapterCall = []) :=
  ⟨(c4_missing_required_args emptyArgs cEnv).1 rfl,
   (c4_missing_required_args emptyArgs cEnv).2.1 rfl,
   (c4_missing_required_args emptyArgs cEnv).2.2 (Or.inl rfl)⟩

namespace Unsplash

lemma fetchAndWrite_shape (env : Env) (dp url : String) (tr : List Effect) :
    (∃ m, fetchAndWrite env dp url tr = (errEnvelope m, tr ++ [Effect.fetchUrl url])) ∨
    (∃ b m, fetchAndWrite env dp url tr =
        (errEnvelope m, tr ++ [Effect.fetchUrl url, Effect.writeFile dp b])) ∨
    (∃ b, fetchAndWrite env dp url tr =
        (okEnvelope (downloadSuccessJson dp b.length),
         tr ++ [Effect.fetchUrl url, Effect.writeFile dp b]) ∧
      env.writeFile dp b = .ok ()) := by
  unfold fetchAndWrite
  dsimp only
  split
  · exact Or.inl ⟨_, rfl⟩
  · split
    · exact Or.inl ⟨_, rfl⟩
    · split
      · exact Or.inr (Or.inl ⟨_, _, rfl⟩)
      · next heq => exact Or.inr (Or.inr ⟨_, rfl, heq⟩)

lemma download_id_resolved (args : Args) (env : Env) (photo : ProviderPhoto)
    (r : ApiResult Unit)
    (hA : truthyStr args.imageSource = true) (hB : truthyStr args.sourceType = true)
    (hC : truthyStr args.destinationPath = true)
    (hst : args.sourceType = some "id")
    (hmk : env.dirExists (dirOf args) = true ∨
      env.mkdirRecursive (dirOf args) = .ok ())
    (hpg : env.photosGet (srcOf args) = .ok (.ok photo))
    (htd : env.trackDownload photo.links.download_location = .ok r) :
    handleDownloadImage args env =
      fetchAndWrite env (dpOf args) (selectQuality args.quality photo.urls)
        (mkPre args env ++ [Effect.photosGet (srcOf args),
          Effect.trackDownload photo.links.download_location]) := by
  have hgd : args.sourceType.getD "" = "id" := by rw [hst]; rfl
  rcases hmk with hd | hmo
  · simp [handleDownloadImage, mkPre, hA, hB, hC, hgd, hd, hpg, htd]
  · by_cases hd : env.dirExists (dirOf args) = true
    · simp [handleDownloadImage, mkPre, hA, hB, hC, hgd, hd, hpg, htd]
    · simp [handleDownloadImage, mkPre, hA, hB, hC, hgd, hd, hmo, hpg, htd]

lemma download_url_resolved (args : Args) (env : Env)
    (hA : truthyStr args.imageSource = true) (hB : truthyStr args.sourceType = true)
    (hC : truthyStr args.destinationPath = true)
    (hst : args.sourceType = some "url")
    (hmk : env.dirExists (dirOf args) = true ∨
      env.mkdirRecursive (dirOf args) = .ok ()) :
    handleDownloadImage args env =
      fetchAndWrite env (dpOf args) (srcOf args) (mkPre args env) := by
  have hgd : args.sourceType.getD "" = "url" := by rw [hst]; rfl
  rcases hmk with hd | hmo
  · simp [handleDownloadImage, mkPre, hA, hB, hC, hgd, hd]
  · by_cases hd : env.dirExists (dirOf args) = true
    · simp [handleDownloadImage, mkPre, hA, hB, hC, hgd, hd]
    · simp [handleDownloadImage, mkPre, hA, hB, hC, hgd, hd, hmo]

lemma mkPre_no_track (args : Args) (env : Env) (u : String) :
    Effect.trackDownload u ∉ mkPre args env := by
  by_cases hd : env.dirExists (dirOf args) = true <;> simp [mkPre, hd]

lemma random_ok_shape (args : Args) (env : Env) (resp : RandomResp)
    (he : env.photosGetRandom (randomParamsOf args) = .ok (.ok resp)) :
    handleGetRandomImage args env =
      (okEnvelope (.obj [("images", .arr (randomImagesOf resp))]),
       [Effect.photosGetRandom (randomParamsOf args)]) := by
  unfold handleGetRandomImage
  dsimp only
  rw [he]

end Unsplash

/-- C5: with sourceType id, once the photo metadata resolves, the
download-tracking call fires against the download-location link before
the byte fetch, and the result envelope does not depend on the outcome
r of the tracking call; with sourceType url, the provided string itself
is fetched and no tracking call appears in the trace. -/
theorem c5_tracking_semantics (args : Args) (env : Env) (photo : ProviderPhoto)
    (r : ApiResult Unit)
    (hA : truthyStr args.imageSource = true) (hB : truthyStr args.sourceType = true)
    (hC : truthyStr args.destinationPath = true)
    (hmk : env.dirExists (dirOf args) = true ∨
      env.mkdirRecursive (dirOf args) = .ok ()) :
    (args.sourceType = some "id" →
      env.photosGet (srcOf args) = .ok (.ok photo) →
      env.trackDownload photo.links.download_location = .ok r →
      handleDownloadImage args env =
        fetchAndWrite env (dpOf args) (selectQuality args.quality photo.urls)
          (mkPre args env ++ [Effect.photosGet (srcOf args),
            Effect.trackDownload photo.links.download_location]) ∧
      ∃ rest, (handleDownloadImage args env).2 =
        mkPre args env ++
          Effect.photosGet (srcOf args) ::
          Effect.trackDownload photo.links.download_location ::
          Effect.fetchUrl (selectQuality args.quality photo.urls) :: rest) ∧
    (args.sourceType = some "url" →
      handleDownloadImage args env =
        fetchAndWrite env (dpOf args) (srcOf args) (mkPre args env) ∧
      (∀ u, Effect.trackDownload u ∉ (handleDownloadImage args env).2) ∧
      ∃ rest, (handleDownloadImage args env).2 =
        mkPre args env ++ Effect.fetchUrl (srcOf args) :: rest) := by
  constructor
  · intro hst hpg htd
    have hmain := download_id_resolved args env photo r hA hB hC hst hmk hpg htd
    refine ⟨hmain, ?_⟩
    rcases fetchAndWrite_shape env (dpOf args)
        (selectQuality args.quality photo.urls)
        (mkPre args env ++ [Effect.photosGet (srcOf args),
          Effect.trackDownload photo.links.download_location]) with
      ⟨m, hw⟩ | ⟨b, m, hw⟩ | ⟨b, hw, _⟩
    · exact ⟨[], by rw [hmain, hw]; simp⟩
    · exact ⟨[Effect.writeFile (dpOf args) b], by rw [hmain, hw]; simp⟩
    · exact ⟨[Effect.writeFile (dpOf args) b], by rw [hmain, hw]; simp⟩
  · intro hst
    have hmain := download_url_resolved args env hA hB hC hst hmk
    refine ⟨hmain, ?_, ?_⟩
    · intro u
      rcases fetchAndWrite_shape env (dpOf args) (srcOf args) (mkPre args env) with
        ⟨m, hw⟩ | ⟨b, m, hw⟩ | ⟨b, hw, _⟩ <;>
      · rw [hmain, hw]
        simp [mkPre_no_track args env u]
    · rcases fetchAndWrite_shape env (dpOf args) (srcOf args) (mkPre args env) with
        ⟨m, hw⟩ | ⟨b, m, hw⟩ | ⟨b, hw, _⟩
      · exact ⟨[], by rw [hmain, hw]⟩
      · exact ⟨[Effect.writeFile (dpOf args) b], by rw [hmain, hw]⟩
      · exact ⟨[Effect.writeFile (dpOf args) b], by rw [hmain, hw]⟩

/-- C5 witness: concrete id download (tracking before fetch) and
concrete url download (no tracking, direct url fetched). -/
theorem c5_tracking_semantics_witness :
    (handleDownloadImage cArgs cEnv =
      fetchAndWrite cEnv (dpOf cArgs) (selectQuality cArgs.quality samplePhoto.urls)
        (mkPre cArgs cEnv ++ [Effect.photosGet (srcOf cArgs),
          Effect.trackDownload samplePhoto.links.download_location]) ∧
      ∃ rest, (handleDownloadImage cArgs cEnv).2 =
        mkPre cArgs cEnv ++
          Effect.photosGet (srcOf cArgs) ::
          Effect.trackDownload samplePhoto.links.download_location ::
          Effect.fetchUrl (selectQuality cArgs.quality samplePhoto.urls) :: rest) ∧
    (handleDownloadImage cUrlArgs cEnv =
      fetchAndWrite cEnv (dpOf cUrlArgs) (srcOf cUrlArgs) (mkPre cUrlArgs cEnv) ∧
      (∀ u, Effect.trackDownload u ∉ (handleDownloadImage cUrlArgs cEnv).2) ∧
      ∃ rest, (handleDownloadImage cUrlArgs cEnv).2 =
        mkPre cUrlArgs cEnv ++ Effect.fetchUrl (srcOf cUrlArgs) :: rest) :=
  ⟨(c5_tracking_semantics cArgs cEnv samplePhoto (.ok ()) rfl rfl rfl
      (Or.inr rfl)).1 rfl rfl rfl,
   (c5_tracking_semantics cUrlArgs cEnv samplePhoto (.ok ()) rfl rfl rfl
      (Or.inr rfl)).2 rfl⟩

/-- C6: with sourceType id, the fetched URL is the urls field named by
the quality argument for the five recognized values (full selects full),
and the regular URL when quality is omitted or unrecognized; exactly one
fetch occurs. -/
theorem c6_quality_selection (args : Args) (env : Env) (photo : ProviderPhoto)
    (r : ApiResult Unit)
    (hA : truthyStr args.imageSource = true) (hB : truthyStr args.sourceType = true)
    (hC : truthyStr args.destinationPath = true)
    (hst : args.sourceType = some "id")
    (hmk : env.dirExists (dirOf args) = true ∨
      env.mkdirRecursive (dirOf args) = .ok ())
    (hpg : env.photosGet (srcOf args) = .ok (.ok photo))
    (htd : env.trackDownload photo.links.download_location = .ok r) :
    (∃ rest, (handleDownloadImage args env).2 =
        mkPre args env ++
          Effect.photosGet (srcOf args) ::
          Effect.trackDownload photo.links.download_location ::
          Effect.fetchUrl (selectQuality args.quality photo.urls) :: rest ∧
        ∀ u, Effect.fetchUrl u ∉ rest) ∧
    (args.quality = some "raw" →
      selectQuality args.quality photo.urls = photo.urls.raw) ∧
    (args.quality = some "full" →
      selectQuality args.quality photo.urls = photo.urls.full) ∧
    (args.quality = some "regular" →
      selectQuality args.quality photo.urls = photo.urls.regular) ∧
    (args.quality = some "small" →
      selectQuality args.quality photo.urls = photo.urls.small) ∧
    (args.quality = some "thumb" →
      selectQuality args.quality photo.urls = photo.urls.thumb) ∧
    (args.quality = none →
      selectQuality args.quality photo.urls = photo.urls.regular) ∧
    (∀ q, args.quality = some q → q ≠ "raw" → q ≠ "full" → q ≠ "regular" →
      q ≠ "small" → q ≠ "thumb" →
      selectQuality args.quality photo.urls = photo.urls.regular) := by
  have hmain := download_id_resolved args env photo r hA hB hC hst hmk hpg htd
  refine ⟨?_, ?_, ?_, ?_, ?_, ?_, ?_, ?_⟩
  · rcases fetchAndWrite_shape env (dpOf args)
        (selectQuality args.quality photo.urls)
        (mkPre args env ++ [Effect.photosGet (srcOf args),
          Effect.trackDownload photo.links.download_location]) with
      ⟨m, hw⟩ | ⟨b, m, hw⟩ | ⟨b, hw, _⟩
    · exact ⟨[], by rw [hmain, hw]; simp, by simp⟩
    · exact ⟨[Effect.writeFile (dpOf args) b], by rw [hmain, hw]; simp, by simp⟩
    · exact ⟨[Effect.writeFile (dpOf args) b], by rw [hmain, hw]; simp, by simp⟩
  · intro h; simp [selectQuality, h]
  · intro h; simp [selectQuality, h]
  · intro h; simp [selectQuality, h]
  · intro h; simp [selectQuality, h]
  · intro h; simp [selectQuality, h]
  · intro h; simp [selectQuality, h]
  · intro q h h1 h2 h3 h4 h5; simp [selectQuality, h, h1, h2, h3, h4, h5]

/-- C6 witness: the concrete download with quality full fetches the full
url, after the tracking call. -/
theorem c6_quality_selection_witness :
    (∃ rest, (handleDownloadImage cArgs cEnv).2 =
        mkPre cArgs cEnv ++
          Effect.photosGet (srcOf cArgs) ::
          Effect.trackDownload samplePhoto.links.download_location ::
          Effect.fetchUrl (selectQuality cArgs.quality samplePhoto.urls) :: rest ∧
        ∀ u, Effect.fetchUrl u ∉ rest) ∧
    selectQuality cArgs.quality samplePhoto.urls = samplePhoto.urls.full :=
  have h := c6_quality_selection cArgs cEnv samplePhoto (.ok ()) rfl rfl rfl rfl
    (Or.inr rfl) rfl rfl
  ⟨h.1, h.2.2.1 rfl⟩

/-- C8: a successful get_random_image invocation returns a payload
shaped as one images array, built by mapping the projection over an
array response and wrapping a single-object response in a one-element
list, independently of the count argument. -/
theorem c8_random_normalization (args : Args) (env : Env) (resp : RandomResp)
    (he : env.photosGetRandom (randomParamsOf args) = .ok (.ok resp)) :
    (handleGetRandomImage args env).1 =
      okEnvelope (.obj [("images", .arr (randomImagesOf resp))]) ∧
    (∀ ps, resp = .many ps → randomImagesOf resp = ps.map formatPhotoJson) ∧
    (∀ p, resp = .single p → randomImagesOf resp = [formatPhotoJson p]) := by
  refine ⟨?_, ?_, ?_⟩
  · rw [random_ok_shape args env resp he]
  · intro ps h; rw [h]; rfl
  · intro p h; rw [h]; rfl

/-- C8 witness: a single-object response yields a one-element images
array, an array response yields the mapped array. -/
theorem c8_random_normalization_witness :
    (handleGetRandomImage emptyArgs cEnv).1 =
      okEnvelope (.obj [("images", .arr [formatPhotoJson samplePhoto])]) ∧
    (handleGetRandomImage cCountArgs cManyEnv).1 =
      okEnvelope (.obj [("images",
        .arr ([samplePhoto, samplePhoto].map formatPhotoJson))]) := by
  have h1 := c8_random_normalization emptyArgs cEnv (.single samplePhoto) rfl
  have h2 := c8_random_normalization cCountArgs cManyEnv
    (.many [samplePhoto, samplePhoto]) rfl
  constructor
  · rw [h1.1, h1.2.2 samplePhoto rfl]
  · rw [h2.1, h2.2.1 [samplePhoto, samplePhoto] rfl]

/-- C9: the perPage actually sent to the search adapter is
min(perPage, 30) with default 10, and the count sent to the random
adapter is min(count, 30) with default 1. -/
theorem c9_numeric_clamping (args : Args) (env : Env) :
    (searchParamsOf args).perPage = min (args.perPage.getD 10) 30 ∧
    (randomParamsOf args).count = min (args.count.getD 1) 30 ∧
    (truthyOpt args.query ∧ isStringOpt args.query →
      (handleSearchImages args env).2 =
        [Effect.searchGetPhotos (searchParamsOf args)]) ∧
    (handleGetRandomImage args env).2 =
      [Effect.photosGetRandom (randomParamsOf args)] := by
  refine ⟨rfl, rfl, ?_, ?_⟩
  · intro h
    unfold handleSearchImages
    rw [if_neg (not_not_intro h)]
    dsimp only
    split <;> rfl
  · unfold handleGetRandomImage
    dsimp only
    split <;> rfl

/-- C9 witness: perPage 1000 reaches the adapter as 30 and count 50
reaches it as 30. -/
theorem c9_numeric_clamping_witness :
    (handleSearchImages cClampArgs cEnv).2 =
      [Effect.searchGetPhotos (searchParamsOf cClampArgs)] ∧
    (searchParamsOf cClampArgs).perPage = 30 ∧
    (handleGetRandomImage cClampArgs cEnv).2 =
      [Effect.photosGetRandom (randomParamsOf cClampArgs)] ∧
    (randomParamsOf cClampArgs).count = 30 := by
  have h := c9_numeric_clamping cClampArgs cEnv
  refine ⟨h.2.2.1 (by decide), ?_, h.2.2.2, ?_⟩
  · rw [h.1]; decide
  · rw [h.2.1]; decide

namespace Unsplash

lemma download_shape (args : Args) (env : Env) :
    (∃ m tr, handleDownloadImage args env = (errEnvelope m, tr)) ∨
    (∃ b tr, handleDownloadImage args env =
        (okEnvelope (downloadSuccessJson (dpOf args) b.length), tr) ∧
      env.writeFile (dpOf args) b = .ok () ∧
      Effect.writeFile (dpOf args) b ∈ tr) := by
  unfold handleDownloadImage
  dsimp only
  split
  · exact Or.inl ⟨_, _, rfl⟩
  · split
    · exact Or.inl ⟨_, _, rfl⟩
    · split
      · exact Or.inl ⟨_, _, rfl⟩
      · split
        · split
          · exact Or.inl ⟨_, _, rfl⟩
          · exact Or.inl ⟨_, _, rfl⟩
          · rename_i photo heq1
            split
            · exact Or.inl ⟨_, _, rfl⟩
            · rcases fetchAndWrite_shape env (dpOf args)
                  (selectQuality args.quality photo.urls)
                  (mkPre args env ++ [Effect.photosGet (srcOf args),
                    Effect.trackDownload photo.links.download_location]) with
                ⟨m, hw⟩ | ⟨b, m, hw⟩ | ⟨b, hw, hok⟩
              · exact Or.inl ⟨_, _, hw⟩
              · exact Or.inl ⟨_, _, hw⟩
              · exact Or.inr ⟨b, _, hw, hok, by simp⟩
        · rcases fetchAndWrite_shape env (dpOf args) (srcOf args)
              (mkPre args env) with
            ⟨m, hw⟩ | ⟨b, m, hw⟩ | ⟨b, hw, hok⟩
          · exact Or.inl ⟨_, _, hw⟩
          · exact Or.inl ⟨_, _, hw⟩
          · exact Or.inr ⟨b, _, hw, hok, by simp⟩

lemma download_trace_mkPre (args : Args) (env : Env)
    (hA : truthyStr args.imageSource = true) (hB : truthyStr args.sourceType = true)
    (hC : truthyStr args.destinationPath = true)
    (hst : args.sourceType.getD "" = "url" ∨ args.sourceType.getD "" = "id") :
    ∃ rest, (handleDownloadImage args env).2 = mkPre args env ++ rest ∧
      ∀ d, Effect.mkdirRecursive d ∉ rest := by
  have hc : ¬¬(truthyStr args.imageSource = true ∧
      truthyStr args.sourceType = true ∧ truthyStr args.destinationPath = true) :=
    not_not_intro ⟨hA, hB, hC⟩
  have hne : ¬(args.sourceType.getD "" ≠ "url" ∧ args.sourceType.getD "" ≠ "id") := by
    rcases hst with h | h <;> simp [h]
  unfold handleDownloadImage
  rw [if_neg hc]
  dsimp only
  rw [if_neg hne]
  split
  · exact ⟨[], by simp, by simp⟩
  · split
    · split
      · exact ⟨[Effect.photosGet (srcOf args)], by simp, by simp⟩
      · exact ⟨[Effect.photosGet (srcOf args)], by simp, by simp⟩
      · rename_i photo heq1
        split
        · exact ⟨[Effect.photosGet (srcOf args),
            Effect.trackDownload photo.links.download_location], by simp, by simp⟩
        · rcases fetchAndWrite_shape env (dpOf args)
              (selectQuality args.quality photo.urls)
              (mkPre args env ++ [Effect.photosGet (srcOf args),
                Effect.trackDownload photo.links.download_location]) with
            ⟨m, hw⟩ | ⟨b, m, hw⟩ | ⟨b, hw, _⟩
          · exact ⟨[Effect.photosGet (srcOf args),
              Effect.trackDownload photo.links.download_location,
              Effect.fetchUrl (selectQuality args.quality photo.urls)],
              by rw [hw]; simp, by simp⟩
          · exact ⟨[Effect.photosGet (srcOf args),
              Effect.trackDownload photo.links.download_location,
              Effect.fetchUrl (selectQuality args.quality photo.urls),
              Effect.writeFile (dpOf args) b],
              by rw [hw]; simp, by simp⟩
          · exact ⟨[Effect.photosGet (srcOf args),
              Effect.trackDownload photo.links.download_location,
              Effect.fetchUrl (selectQuality args.quality photo.urls),
              Effect.writeFile (dpOf args) b],
              by rw [hw]; simp, by simp⟩
    · rcases fetchAndWrite_shape env (dpOf args) (srcOf args)
          (mkPre args env) with
        ⟨m, hw⟩ | ⟨b, m, hw⟩ | ⟨b, hw, _⟩
      · exact ⟨[Effect.fetchUrl (srcOf args)], by rw [hw], by simp⟩
      · exact ⟨[Effect.fetchUrl (srcOf args), Effect.writeFile (dpOf args) b],
          by rw [hw], by simp⟩
      · exact ⟨[Effect.fetchUrl (srcOf args), Effect.writeFile (dpOf args) b],
          by rw [hw], by simp⟩

end Unsplash

/-- C7 (amended): a download_image invocation returning a success
envelope reports a payload with success true, filePath equal to the
destination path, and a field named fileSize (not fileSizeBytes as the
spec writes) equal to the byte length actually written there. -/
theorem c7_download_outcome (args : Args) (env : Env)
    (h : (handleDownloadImage args env).1.isError = false) :
    ∃ b : List Nat,
      (handleDownloadImage args env).1 =
        okEnvelope (downloadSuccessJson (dpOf args) b.length) ∧
      env.writeFile (dpOf args) b = .ok () ∧
      Effect.writeFile (dpOf args) b ∈ (handleDownloadImage args env).2 ∧
      jsonField (downloadSuccessJson (dpOf args) b.length) "success" =
        some (.bool true) ∧
      jsonField (downloadSuccessJson (dpOf args) b.length) "filePath" =
        some (.str (dpOf args)) ∧
      jsonField (downloadSuccessJson (dpOf args) b.length) "fileSize" =
        some (.num (Int.ofNat b.length)) := by
  rcases download_shape args env with ⟨m, tr, hw⟩ | ⟨b, tr, hw, hok, hmem⟩
  · rw [hw] at h; simp [errEnvelope] at h
  · refine ⟨b, ?_, hok, ?_, rfl, rfl, rfl⟩
    · rw [hw]
    · rw [hw]; exact hmem

/-- C7 witness: the concrete successful download writes three bytes and
reports them in the fileSize field. -/
theorem c7_download_outcome_witness :
    ∃ b : List Nat,
      (handleDownloadImage cArgs cEnv).1 =
        okEnvelope (downloadSuccessJson (dpOf cArgs) b.length) ∧
      cEnv.writeFile (dpOf cArgs) b = .ok () ∧
      Effect.writeFile (dpOf cArgs) b ∈ (handleDownloadImage cArgs cEnv).2 ∧
      jsonField (downloadSuccessJson (dpOf cArgs) b.length) "success" =
        some (.bool true) ∧
      jsonField (downloadSuccessJson (dpOf cArgs) b.length) "filePath" =
        some (.str (dpOf cArgs)) ∧
      jsonField (downloadSuccessJson (dpOf cArgs) b.length) "fileSize" =
        some (.num (Int.ofNat b.length)) :=
  c7_download_outcome cArgs cEnv rfl

/-- C7 counterexample: at a concrete successful download the serialized
payload carries no fileSizeBytes field at all; the byte length travels
in a field named fileSize. -/
theorem c7_no_fileSizeBytes_field :
    (handleDownloadImage cArgs cEnv).1 =
      okEnvelope (downloadSuccessJson "/tmp/pics/cat.jpg" 3) ∧
    (handleDownloadImage cArgs cEnv).1.isError = false ∧
    (handleDownloadImage cArgs cEnv).2 =
      [Effect.mkdirRecursive "/tmp/pics", Effect.photosGet "abc123",
       Effect.trackDownload "https://api/dl/abc123",
       Effect.fetchUrl "https://img/full",
       Effect.writeFile "/tmp/pics/cat.jpg" [7, 8, 9]] ∧
    jsonField (downloadSuccessJson "/tmp/pics/cat.jpg" 3) "fileSizeBytes" = none ∧
    jsonField (downloadSuccessJson "/tmp/pics/cat.jpg" 3) "fileSize" =
      some (.num 3) :=
  ⟨rfl, rfl, rfl, rfl, rfl⟩

/-- C10: once download_image arguments validate, the trace starts with
the ensure-directory step: the recursive mkdir of the destination
directory when it does not exist yet (before any provider call or
fetch, whatever happens later), and no mkdir at all when it already
exists. -/
theorem c10_ensure_directory (args : Args) (env : Env)
    (hA : truthyStr args.imageSource = true) (hB : truthyStr args.sourceType = true)
    (hC : truthyStr args.destinationPath = true)
    (hst : args.sourceType.getD "" = "url" ∨ args.sourceType.getD "" = "id") :
    (∀ e, e ∈ mkPre args env → e = Effect.mkdirRecursive (dirOf args)) ∧
    (∃ rest, (handleDownloadImage args env).2 = mkPre args env ++ rest) ∧
    (env.dirExists (dirOf args) = false →
      Effect.mkdirRecursive (dirOf args) ∈ (handleDownloadImage args env).2) ∧
    (env.dirExists (dirOf args) = true →
      ∀ d, Effect.mkdirRecursive d ∉ (handleDownloadImage args env).2) := by
  obtain ⟨rest, heq, hnm⟩ := download_trace_mkPre args env hA hB hC hst
  refine ⟨?_, ⟨rest, heq⟩, ?_, ?_⟩
  · intro e he
    by_cases hd : env.dirExists (dirOf args) = true
    · simp [mkPre, hd] at he
    · simp [mkPre, hd] at he; exact he
  · intro hd
    rw [heq]; simp [mkPre, hd]
  · intro hd d
    rw [heq]; simpa [mkPre, hd] using hnm d

/-- C10 witness: the concrete download against a missing directory
performs the recursive mkdir first. -/
theorem c10_ensure_directory_witness :
    (∀ e, e ∈ mkPre cArgs cEnv → e = Effect.mkdirRecursive (dirOf cArgs)) ∧
    (∃ rest, (handleDownloadImage cArgs cEnv).2 = mkPre cArgs cEnv ++ rest) ∧
    (cEnv.dirExists (dirOf cArgs) = false →
      Effect.mkdirRecursive (dirOf cArgs) ∈ (handleDownloadImage cArgs cEnv).2) ∧
    (cEnv.dirExists (dirOf cArgs) = true →
      ∀ d, Effect.mkdirRecursive d ∉ (handleDownloadImage cArgs cEnv).2) :=
  c10_ensure_directory cArgs cEnv rfl rfl rfl (Or.inr rfl)
